import Mathlib

/-!
Shallow embedding of `src/experiments/mnist_experiment/experiment_manager.py`
from the boiler-pytorch repository (the `MnistExperiment` class), together
with theorems checking the claims of the specification about it.

Modelling conventions:
- float tensors are embedded as rationals (`ℚ`); an image is flattened over
  its channel/height/width dimensions into a `List ℚ`, a batch is a list of
  images (dimension 0 of an `[N, C, H, W]` tensor);
- transcendental functions (the logarithm inside the Bernoulli log-probability),
  the external `torch.distributions.kl.kl_divergence`, and the `"%.5g"`-style
  float formatting used in log lines are abstracted as function parameters,
  since the claims under study are about how the code aggregates and arranges
  those quantities, not about their numeric values;
- side effects (writing an image file, drawing prior samples, running the
  model) are recorded in an explicit event trace, and Python exceptions are
  `Except.error` values carrying the exception message;
- Python dicts (`summaries`, the `out` mapping) are association lists in
  insertion order, matching dict iteration order.
-/

namespace Boilr

/-- One example (image), flattened over channel, height and width. -/
abbrev Img := List ℚ

/-- A batch of examples: dimension 0 of an `[N, C, H, W]` tensor. -/
abbrev Batch := List Img

/-- The dictionary returned by `model(x)`: keys `mean`, `sample`, `qz`.
`Z` is the (abstract) type of the approximate-posterior object `qz`. -/
structure ModelOutput (Z : Type) where
  mean : Batch
  sample : Batch
  qz : Z

/-- The pieces of the model that `MnistExperiment` uses: calling it on a batch
(`model(x)`), its prior `pz` (abstract type `P`), its `global_step` counter and
`sample_prior`. -/
structure Model (Z P : Type) where
  run : Batch → ModelOutput Z
  pz : P
  global_step : ℕ
  sample_prior : ℕ → Batch

/-- Embedding of `torch.distributions.Bernoulli(m).log_prob(v)`, which equals
`v * log m + (1 - v) * log (1 - m)` (binary cross-entropy), with the
logarithm abstracted as `log`. -/
def bernoulli_log_prob (log : ℚ → ℚ) (m v : ℚ) : ℚ :=
  v * log m + (1 - v) * log (1 - m)

/-- Embedding of `t.mean()` for a 1-D tensor: sum divided by length. -/
def tensorMean (l : List ℚ) : ℚ :=
  l.sum / l.length

/-- The dictionary returned by `MnistExperiment.forward_pass`. -/
structure ForwardResult where
  out_sample : Batch
  out_mean : Batch
  loss : ℚ
  elbo_sep : List ℚ
  elbo : ℚ
  recons : ℚ
  kl : ℚ

/-- Embedding of `MnistExperiment.forward_pass(model, x)`.

Here `log` abstracts the logarithm inside `Bernoulli.log_prob`, and `klDiv`
abstracts `torch.distributions.kl.kl_divergence`, returning the
`[N, latent]` tensor of per-example per-dimension KL values.
`pxz.log_prob(x).sum((1, 2, 3))` is the per-example sum over the flattened
channel/height/width pixels, and the KL tensor with `.sum(1)` is the
per-example sum over the latent dimension. -/
def forward_pass {Z P : Type} (log : ℚ → ℚ) (klDiv : Z → P → List (List ℚ))
    (model : Model Z P) (x : Batch) : ForwardResult :=
  let out := model.run x
  let log_likelihood : List ℚ :=
    List.zipWith (fun mi xi => (List.zipWith (bernoulli_log_prob log) mi xi).sum) out.mean x
  let kl : List ℚ := ((klDiv out.qz model.pz).map List.sum)
  let elbo_sep := List.zipWith (fun a b => a - b) log_likelihood kl
  let elbo := tensorMean elbo_sep
  let loss := - elbo
  { out_sample := out.sample
    out_mean := out.mean
    loss := loss
    elbo_sep := elbo_sep
    elbo := elbo
    recons := - tensorMean log_likelihood
    kl := tensorMean kl }

/-- Spec-side: "the Bernoulli log-probability of x under the decoder mean
summed over the channel, height and width dimensions", one scalar per
example. -/
def specLogLikelihood (log : ℚ → ℚ) (mean x : Batch) : List ℚ :=
  List.zipWith (fun mi xi =>
    (List.zipWith (fun m v => v * log m + (1 - v) * log (1 - m)) mi xi).sum) mean x

/-- Spec-side: the KL divergence from qz to the prior of the model summed
over the latent dimension, one scalar per example. -/
def specKL {Z P : Type} (klDiv : Z → P → List (List ℚ)) (qz : Z) (pz : P) : List ℚ :=
  (klDiv qz pz).map List.sum

/-- Modelled from the spec: the parsed configuration namespace
(`argparse.Namespace`).  The parser itself is built by the boilr helper
`add_required_args` (code of this repository not under `src/`); per spec §6
the configuration surface is batch size, test batch size, learning rate,
weight decay, random seed, logging interval, test-logging interval,
checkpoint interval, resume path, marginal-log-likelihood evaluation interval
(`loglik_interval`), number of importance samples, and a free-text
run-description suffix; boilr additionally supplies the dry-run flag used by
`additional_testing`. -/
structure Args where
  batch_size : ℕ
  test_batch_size : ℕ
  lr : ℚ
  weight_decay : ℚ
  seed : ℤ
  log_interval : ℕ
  test_log_interval : ℕ
  checkpoint_interval : ℕ
  resume : String
  loglik_interval : ℕ
  loglik_samples : ℕ
  additional_descr : String
  dry_run : Bool
  deriving DecidableEq

/-- The defaults passed to `add_required_args` at the `_parse_args` call site
(`ll_every=50000` populates `loglik_interval`), plus `--wd` default 0. -/
def default_args : Args where
  batch_size := 64
  test_batch_size := 1000
  lr := 1 / 1000
  weight_decay := 0
  seed := 54321
  log_interval := 1000
  test_log_interval := 1000
  checkpoint_interval := 10000
  resume := ""
  loglik_interval := 50000
  loglik_samples := 100
  additional_descr := ""
  dry_run := false

/-- Embedding of `MnistExperiment._parse_args`, applied to an already-parsed configuration
namespace (the argparse machinery itself is boilr/argparse, modelled by
`Args`): the body runs
`assert args.loglik_interval % args.test_log_interval == 0` and returns
`args`.  Python `%` raises `ZeroDivisionError` when the right operand is 0,
and a failing `assert` raises `AssertionError`. -/
def _parse_args (args : Args) : Except String Args :=
  if args.test_log_interval = 0 then
    .error "ZeroDivisionError: integer modulo by zero"
  else if args.loglik_interval % args.test_log_interval = 0 then
    .ok args
  else
    .error "AssertionError"

/-- Embedding of `MnistExperiment._make_run_description(args)`: starting
from the empty string, append `seed` followed by the formatted seed value,
then append a comma and `args.additional_descr` when that tag is
non-empty. -/
def _make_run_description (args : Args) : String :=
  let s : String := ""
  let s := s ++ "seed" ++ toString args.seed
  if 0 < args.additional_descr.length then s ++ "," ++ args.additional_descr else s

/-- Side effects performed by the visualization hooks: running the forward
pass of the model, drawing unconditional prior samples, and writing one image grid
to disk (`torchvision.utils.save_image(imgs, fname, nrow=n, pad_value=pad)`). -/
inductive Event where
  | forwardPassEv (x : Batch)
  | samplePriorEv (n : ℕ)
  | saveImageEv (fname : String) (imgs : Batch) (nrow : ℕ) (pad : ℚ)
  deriving DecidableEq

/-- Whether an event is a written image artifact (a `save_image` call). -/
def Event.isSaveImage : Event → Bool
  | Event.saveImageEv _ _ _ _ => true
  | _ => false

/-- The file name a `save_image` event writes to, if any. -/
def Event.savedFname : Event → Option String
  | Event.saveImageEv fname _ _ _ => some fname
  | _ => none

/-- Modelled from the spec: `boilr.utils.img_grid_pad_value` (code of this
repository not under `src/`) computes "a padding value ... from the image
data itself (e.g., the minimum of the data range); modelled as the minimum
pixel value of the given images (0 for empty data). -/
def img_grid_pad_value (imgs : Batch) : ℚ :=
  (imgs.flatten.min?).getD 0

/-- Embedding of `torch.stack([a, b]).permute(1, 0, 2, 3, 4).reshape(n ** 2, C, H, W)`
on two equal-length stacks of images: the `[2, m, …]` stack is transposed to
`[m, 2, …]` and flattened over the first two dimensions, interleaving the two
stacks pairwise (`a₀, b₀, a₁, b₁, …`).  (`torch.stack` itself requires its
arguments to have equal shape.) -/
def stack_permute_reshape (a b : Batch) : Batch :=
  (List.zipWith (fun p q => [p, q]) a b).flatten

/-- Embedding of `MnistExperiment.save_input_and_recons(x, fname, n)`: returns the trace
of side effects, and either `ok` or the message of the raised
`RuntimeError`.  The batch-size check precedes the forward pass and the
`save_image` call. -/
def save_input_and_recons {Z P : Type} (log : ℚ → ℚ) (klDiv : Z → P → List (List ℚ))
    (model : Model Z P) (x : Batch) (fname : String) (n : ℕ) :
    List Event × Except String Unit :=
  let n_img := n ^ 2 / 2
  if x.length < n_img then
    ([], .error (toString n_img ++ " data points required, but given batch has size " ++
      toString x.length ++ ". Please use a larger batch."))
  else
    let outputs := forward_pass log klDiv model x
    let x1 := x.take n_img
    let recons := outputs.out_sample.take n_img
    let imgs := stack_permute_reshape x1 recons
    let pad := img_grid_pad_value imgs
    ([Event.forwardPassEv x, Event.saveImageEv fname imgs n pad], .ok ())

/-- The state of an `MnistExperiment` object used by `additional_testing`:
its parsed `args`, its `model`, and `dataloaders.test` (a sequence of
`(batch, labels)` pairs; `next(iter(...))` takes the first one). -/
structure Experiment (Z P : Type) where
  args : Args
  model : Model Z P
  dataloaders_test : List (Batch × List ℤ)

/-- Embedding of `MnistExperiment.additional_testing(img_folder)`: returns the (unchanged)
experiment object — the method assigns to no attribute of `self` — together
with the trace of side effects and `ok` or the message of a raised exception.
`os.path.join(img_folder, name)` is modelled as `img_folder ++ "/" ++ name`.
An empty test dataloader would make `next(iter(...))` raise
`StopIteration`. -/
def additional_testing {Z P : Type} (log : ℚ → ℚ) (klDiv : Z → P → List (List ℚ))
    (self : Experiment Z P) (img_folder : String) :
    Experiment Z P × List Event × Except String Unit :=
  let step := self.model.global_step
  if self.args.dry_run then
    (self, [], .ok ())
  else
    let n := 8
    let sample := self.model.sample_prior (n ^ 2)
    let fname := img_folder ++ "/" ++ ("sample_" ++ toString step ++ ".png")
    let pad := img_grid_pad_value sample
    let evs := [Event.samplePriorEv (n ^ 2), Event.saveImageEv fname sample n pad]
    match self.dataloaders_test.head? with
    | none => (self, evs, .error "StopIteration")
    | some (x, _) =>
      let fname2 := img_folder ++ "/" ++ ("reconstruction_" ++ toString step ++ ".png")
      let res := save_input_and_recons log klDiv self.model x fname2 n
      (self, evs ++ res.1, res.2)

/-- Python `str` applied to an `int`-or-`None` value (`None` is printed as
the text `None`). -/
def pyStr (o : Option ℤ) : String :=
  match o with
  | some v => toString v
  | none => "None"

/-- Lookup `summaries[k]` on a dict modelled as an association list in insertion
order: the first value bound to `k`, or `none` for a `KeyError`. -/
def dictGet (d : List (String × ℚ)) (k : String) : Option ℚ :=
  (d.find? (fun kv => kv.1 = k)).map (fun kv => kv.2)

/-- Python `k.find(sub) > -1`: `sub` occurs as a contiguous substring of
`k`, anywhere. -/
def containsSub (k sub : String) : Bool :=
  decide (sub.toList <:+: k.toList)

/-- Python `str.split` with a single-character separator, on the character
list of the string: splitting never yields an empty list (splitting the
empty string gives one empty part). -/
def splitOnChar (sep : Char) : List Char → List (List Char)
  | [] => [[]]
  | c :: cs =>
    let rest := splitOnChar sep cs
    if c = sep then [] :: rest
    else
      match rest with
      | [] => [[c]]
      | r :: rs => (c :: r) :: rs

/-- Python `k.split(sep)[-1]` with `sep` the underscore character: the text
after the last underscore of `k` (all of `k` if it has no underscore). -/
def afterLastUnderscore (k : String) : String :=
  String.mk ((splitOnChar '_' k.data).getLastD [])

/-- The prefix of the test log line built before the metric scalars:
`"       "` plus, when `epoch is not None`,
`"[step {}, epoch {}]   ".format(step, epoch)`. -/
def test_log_header (step epoch : Option ℤ) : String :=
  match epoch with
  | some e => "       " ++ "[step " ++ pyStr step ++ ", epoch " ++ toString e ++ "]   "
  | none => "       "

/-- Embedding of `MnistExperiment.print_test_log(summaries, step, epoch)`:
the string it prints, or `none` for a `KeyError` on a missing metric key.
Here `fmt5g` and `fmt3g` abstract the 5- and 3-significant-digit float
formats.  The importance-weighted entry is found by a linear scan in
iteration order for the first key `k` on which `k.find` locates the text
`elbo_IW` (a non-negative index); its sample count is the last element of
the split of `k` on underscores. -/
def print_test_log (fmt5g fmt3g : ℚ → String) (summaries : List (String × ℚ))
    (step epoch : Option ℤ) : Option String := do
  let log1 := test_log_header step epoch
  let elbo ← dictGet summaries "elbo/elbo"
  let recons ← dictGet summaries "elbo/recons"
  let kl ← dictGet summaries "elbo/kl"
  let log2 := log1 ++ ("ELBO " ++ fmt5g elbo ++ "   recons: " ++ fmt3g recons ++
    "   KL: " ++ fmt3g kl)
  match summaries.find? (fun kv => containsSub kv.1 "elbo_IW") with
  | none => pure log2
  | some kv =>
    let iw_samples := afterLastUnderscore kv.1
    let llval ← dictGet summaries kv.1
    pure (log2 ++ "   marginal log-likelihood (" ++ iw_samples ++ ") " ++ fmt5g llval)

/-- A concrete model used to instantiate theorems with hypotheses: decoder
mean is constantly 1/2, the sample echoes the input, `qz` and `pz` are
trivial, `global_step` is 7, prior samples are black images. -/
def witModel : Model Unit Unit where
  run := fun x =>
    { mean := x.map (fun e => e.map (fun _ => mkRat 1 2))
      sample := x
      qz := () }
  pz := ()
  global_step := 7
  sample_prior := fun n => List.replicate n [0]

/-- Trivial stand-in for the abstracted logarithm in concrete
instantiations. -/
def zeroLog : ℚ → ℚ := fun _ => 0

/-- Trivial stand-in for the abstracted `kl_divergence` in concrete
instantiations. -/
def zeroKl : Unit → Unit → List (List ℚ) := fun _ _ => [[0]]

/-- A concrete 32-example batch. -/
def batch32 : Batch := List.replicate 32 [1]

/-- A concrete 33-example batch. -/
def batch33 : Batch := List.replicate 33 [1]

/-- A concrete experiment whose (single) test batch has only 31 examples,
with the dry-run flag unset. -/
def smallBatchExperiment : Experiment Unit Unit where
  args := { default_args with test_batch_size := 31 }
  model := witModel
  dataloaders_test := [(List.replicate 31 [0], [])]

/-- A concrete experiment with the dry-run flag set. -/
def dryRunExperiment : Experiment Unit Unit where
  args := { default_args with dry_run := true }
  model := witModel
  dataloaders_test := [(List.replicate 31 [0], [])]

/-- A concrete experiment whose (single) test batch has 32 examples, with the
dry-run flag unset. -/
def okExperiment : Experiment Unit Unit where
  args := default_args
  model := witModel
  dataloaders_test := [(batch32, [])]

/-- The grid built from `batch32` and its reconstructions under `witModel`. -/
def wgrid32 : Batch :=
  stack_permute_reshape (batch32.take 32)
    ((forward_pass zeroLog zeroKl witModel batch32).out_sample.take 32)

/-- The grid built from `batch33` and its reconstructions under `witModel`. -/
def wgrid33 : Batch :=
  stack_permute_reshape (batch33.take 32)
    ((forward_pass zeroLog zeroKl witModel batch33).out_sample.take 32)

/-- A concrete summaries mapping holding the three metric scalars and an
importance-weighted entry for 100 samples. -/
def wSummaries : List (String × ℚ) :=
  [("elbo/elbo", 1), ("elbo/recons", 2), ("elbo/kl", 3), ("elbo_IW_100", 4)]

/-- A concrete summaries mapping holding only the three metric scalars. -/
def wPre : List (String × ℚ) :=
  [("elbo/elbo", 1), ("elbo/recons", 2), ("elbo/kl", 3)]

/-- A concrete stand-in for the abstracted float formatting in
instantiations: renders the numerator of the rational. -/
def fmtNum : ℚ → String := fun q => toString q.num

theorem stack_permute_reshape_length (a b : Batch) :
    (stack_permute_reshape a b).length = 2 * min a.length b.length := by
  induction a generalizing b with
  | nil => simp [stack_permute_reshape]
  | cons p ps ih =>
    cases b with
    | nil => simp [stack_permute_reshape]
    | cons q qs =>
      have h := ih qs
      simp only [stack_permute_reshape, List.zipWith_cons_cons, List.flatten_cons,
        List.length_cons, List.length_append, List.length_nil] at h ⊢
      omega

theorem stack_permute_reshape_getElem (a b : Batch) (i : ℕ)
    (ha : i < a.length) (hb : i < b.length) :
    (stack_permute_reshape a b)[2 * i]? = a[i]? ∧
    (stack_permute_reshape a b)[2 * i + 1]? = b[i]? := by
  induction a generalizing b i with
  | nil => simp at ha
  | cons p ps ih =>
    cases b with
    | nil => simp at hb
    | cons q qs =>
      cases i with
      | zero => simp [stack_permute_reshape]
      | succ j =>
        have hj : 2 * (j + 1) = 2 * j + 1 + 1 := by ring
        have h := ih qs j (by simpa using ha) (by simpa using hb)
        simp only [stack_permute_reshape, List.zipWith_cons_cons, List.flatten_cons] at h ⊢
        rw [hj]
        simp only [List.cons_append, List.nil_append, List.getElem?_cons_succ]
        exact h

theorem stack_take_length (a b : Batch) (ha : 32 ≤ a.length) (hb : 32 ≤ b.length) :
    (stack_permute_reshape (a.take 32) (b.take 32)).length = 64 := by
  rw [stack_permute_reshape_length]
  simp only [List.length_take]
  omega

theorem stack_take_getElem (a b : Batch) (ha : 32 ≤ a.length) (hb : 32 ≤ b.length)
    (i : ℕ) (hi : i < 32) :
    (stack_permute_reshape (a.take 32) (b.take 32))[2 * i]? = a[i]? ∧
    (stack_permute_reshape (a.take 32) (b.take 32))[2 * i + 1]? = b[i]? := by
  have h := stack_permute_reshape_getElem (a.take 32) (b.take 32) i
    (by simp only [List.length_take]; omega) (by simp only [List.length_take]; omega)
  rw [List.getElem?_take_of_lt hi, List.getElem?_take_of_lt hi] at h
  exact h

theorem save_input_and_recons_eq_of_le {Z P : Type} (log : ℚ → ℚ)
    (klDiv : Z → P → List (List ℚ)) (model : Model Z P) (x : Batch) (fname : String)
    (hx : 32 ≤ x.length) :
    save_input_and_recons log klDiv model x fname 8 =
      ([Event.forwardPassEv x,
        Event.saveImageEv fname
          (stack_permute_reshape (x.take 32)
            ((forward_pass log klDiv model x).out_sample.take 32)) 8
          (img_grid_pad_value (stack_permute_reshape (x.take 32)
            ((forward_pass log klDiv model x).out_sample.take 32)))], .ok ()) := by
  have hlt : ¬ (x.length < 8 ^ 2 / 2) := by norm_num; omega
  simp only [save_input_and_recons, if_neg hlt]
  norm_num

/-- C1: for every batch `x` and every model whose decoder mean on `x` lies
strictly inside (0,1), `forward_pass` returns a mapping in which `elbo_sep`
is the per-example Bernoulli log-likelihood minus the per-example KL, `elbo`
is the batch mean of `elbo_sep`, `loss = -elbo`, `recons` is minus the mean
per-example log-likelihood, and `kl` is the mean per-example KL. -/
theorem forward_pass_elbo_correct {Z P : Type} (log : ℚ → ℚ)
    (klDiv : Z → P → List (List ℚ)) (model : Model Z P) (x : Batch)
    (hmean : ∀ mi ∈ (model.run x).mean, ∀ m ∈ mi, 0 < m ∧ m < 1) :
    (forward_pass log klDiv model x).elbo_sep =
      List.zipWith (fun a b => a - b)
        (specLogLikelihood log (model.run x).mean x)
        (specKL klDiv (model.run x).qz model.pz) ∧
    (forward_pass log klDiv model x).elbo =
      tensorMean (forward_pass log klDiv model x).elbo_sep ∧
    (forward_pass log klDiv model x).loss = - (forward_pass log klDiv model x).elbo ∧
    (forward_pass log klDiv model x).recons =
      - tensorMean (specLogLikelihood log (model.run x).mean x) ∧
    (forward_pass log klDiv model x).kl =
      tensorMean (specKL klDiv (model.run x).qz model.pz) := by
  refine ⟨rfl, rfl, rfl, rfl, rfl⟩

/-- Concrete instantiation of `forward_pass_elbo_correct` (its hypothesis
holds for `witModel` on the batch `[[1, 0]]`). -/
theorem forward_pass_elbo_correct_witness :
    (∀ mi ∈ (witModel.run [[1, 0]]).mean, ∀ m ∈ mi, 0 < m ∧ m < 1) ∧
    ((forward_pass zeroLog zeroKl witModel [[1, 0]]).elbo_sep =
      List.zipWith (fun a b => a - b)
        (specLogLikelihood zeroLog (witModel.run [[1, 0]]).mean [[1, 0]])
        (specKL zeroKl (witModel.run [[1, 0]]).qz witModel.pz) ∧
    (forward_pass zeroLog zeroKl witModel [[1, 0]]).elbo =
      tensorMean (forward_pass zeroLog zeroKl witModel [[1, 0]]).elbo_sep ∧
    (forward_pass zeroLog zeroKl witModel [[1, 0]]).loss =
      - (forward_pass zeroLog zeroKl witModel [[1, 0]]).elbo ∧
    (forward_pass zeroLog zeroKl witModel [[1, 0]]).recons =
      - tensorMean (specLogLikelihood zeroLog (witModel.run [[1, 0]]).mean [[1, 0]]) ∧
    (forward_pass zeroLog zeroKl witModel [[1, 0]]).kl =
      tensorMean (specKL zeroKl (witModel.run [[1, 0]]).qz witModel.pz)) :=
  ⟨by decide, forward_pass_elbo_correct zeroLog zeroKl
    witModel [[1, 0]] (by decide)⟩

/-- C7: `_make_run_description` returns `seed<seed>` when the free-text tag is
empty and `seed<seed>,<tag>` when it is non-empty; in particular
`"seed54321"` for seed 54321 with no tag, and `"seed54321,exp1"` with tag
`"exp1"`. -/
theorem make_run_description_correct :
    (∀ args : Args, _make_run_description args =
      if 0 < args.additional_descr.length
      then "seed" ++ toString args.seed ++ "," ++ args.additional_descr
      else "seed" ++ toString args.seed) ∧
    _make_run_description { default_args with additional_descr := "" } = "seed54321" ∧
    _make_run_description { default_args with additional_descr := "exp1" } = "seed54321,exp1" := by
  refine ⟨fun args => ?_, by decide, by decide⟩
  show (if 0 < args.additional_descr.length
      then ("" ++ "seed" ++ toString args.seed) ++ "," ++ args.additional_descr
      else "" ++ "seed" ++ toString args.seed) = _
  rw [String.empty_append]

/-- C3: a call to `save_input_and_recons` with grid side `n` and a batch of
fewer than `n²/2` examples raises a `RuntimeError` whose message names the
required example count and the actual batch size, with an empty effect trace
(no forward pass is run and no image is written). -/
theorem save_input_and_recons_small_batch_fails {Z P : Type} (log : ℚ → ℚ)
    (klDiv : Z → P → List (List ℚ)) (model : Model Z P) (x : Batch)
    (fname : String) (n : ℕ) (h : x.length < n ^ 2 / 2) :
    save_input_and_recons log klDiv model x fname n =
      ([], .error (toString (n ^ 2 / 2) ++ " data points required, but given batch has size "
        ++ toString x.length ++ ". Please use a larger batch.")) := by
  simp [save_input_and_recons, h]

/-- Concrete instantiation of `save_input_and_recons_small_batch_fails` at
`n = 8` and a 31-example batch: the message names 32 as required and 31 as
given, no forward pass is run and no image is written. -/
theorem save_input_and_recons_small_batch_fails_witness :
    (List.replicate 31 ([0] : Img)).length < 8 ^ 2 / 2 ∧
    save_input_and_recons zeroLog zeroKl witModel
      (List.replicate 31 [0]) "reconstruction_7.png" 8 =
      ([], Except.error ("32 data points required, but given batch has size 31." ++
        " Please use a larger batch.")) :=
  ⟨by decide, by
    rw [save_input_and_recons_small_batch_fails zeroLog zeroKl witModel
      (List.replicate 31 [0]) "reconstruction_7.png" 8 (by decide)]
    rfl⟩

/-- C4: for n = 8 and a batch of at least 32 examples (with the model
producing at least 32 output samples for it), `save_input_and_recons`
performs one forward pass and writes exactly one image grid of 64
sub-images: sub-image 2i is input example i, sub-image 2i+1 is the
reconstruction (output sample) of example i, in row-major order
(`nrow = 8`), and the padding value passed to `save_image` is
`img_grid_pad_value` of the image data of the grid itself. -/
theorem save_input_and_recons_grid_layout {Z P : Type} (log : ℚ → ℚ)
    (klDiv : Z → P → List (List ℚ)) (model : Model Z P) (x : Batch) (fname : String)
    (hx : 32 ≤ x.length)
    (hs : 32 ≤ (forward_pass log klDiv model x).out_sample.length) :
    save_input_and_recons log klDiv model x fname 8 =
      ([Event.forwardPassEv x,
        Event.saveImageEv fname
          (stack_permute_reshape (x.take 32)
            ((forward_pass log klDiv model x).out_sample.take 32)) 8
          (img_grid_pad_value (stack_permute_reshape (x.take 32)
            ((forward_pass log klDiv model x).out_sample.take 32)))], .ok ()) ∧
    (stack_permute_reshape (x.take 32)
      ((forward_pass log klDiv model x).out_sample.take 32)).length = 64 ∧
    ∀ i < 32,
      (stack_permute_reshape (x.take 32)
        ((forward_pass log klDiv model x).out_sample.take 32))[2 * i]? = x[i]? ∧
      (stack_permute_reshape (x.take 32)
        ((forward_pass log klDiv model x).out_sample.take 32))[2 * i + 1]? =
        (forward_pass log klDiv model x).out_sample[i]? :=
  ⟨save_input_and_recons_eq_of_le log klDiv model x fname hx,
    stack_take_length _ _ hx hs,
    fun i hi => stack_take_getElem _ _ hx hs i hi⟩

/-- Concrete instantiation of `save_input_and_recons_grid_layout` on a
32-example batch. -/
theorem save_input_and_recons_grid_layout_witness :
    32 ≤ batch32.length ∧
    32 ≤ (forward_pass zeroLog zeroKl witModel batch32).out_sample.length ∧
    (save_input_and_recons zeroLog zeroKl witModel batch32 "inout.png" 8 =
      ([Event.forwardPassEv batch32,
        Event.saveImageEv "inout.png" wgrid32 8 (img_grid_pad_value wgrid32)], .ok ()) ∧
     wgrid32.length = 64 ∧
     ∀ i < 32,
       wgrid32[2 * i]? = batch32[i]? ∧
       wgrid32[2 * i + 1]? =
         (forward_pass zeroLog zeroKl witModel batch32).out_sample[i]?) :=
  ⟨by decide, by decide,
    save_input_and_recons_grid_layout zeroLog zeroKl witModel batch32 "inout.png"
      (by decide) (by decide)⟩

/-- C10: for n = 8 and a batch of strictly more than 32 examples (with the
model producing at least 32 output samples for it), `save_input_and_recons`
raises no error and writes a single grid built from exactly the first 32
inputs interleaved with the first 32 reconstructions — 64 sub-images in
total, so the extra examples never appear in the artifact. -/
theorem save_input_and_recons_ignores_extras {Z P : Type} (log : ℚ → ℚ)
    (klDiv : Z → P → List (List ℚ)) (model : Model Z P) (x : Batch) (fname : String)
    (hx : 32 < x.length)
    (hs : 32 ≤ (forward_pass log klDiv model x).out_sample.length) :
    (save_input_and_recons log klDiv model x fname 8).2 = .ok () ∧
    (save_input_and_recons log klDiv model x fname 8).1 =
      [Event.forwardPassEv x,
       Event.saveImageEv fname
         (stack_permute_reshape (x.take 32)
           ((forward_pass log klDiv model x).out_sample.take 32)) 8
         (img_grid_pad_value (stack_permute_reshape (x.take 32)
           ((forward_pass log klDiv model x).out_sample.take 32)))] ∧
    (stack_permute_reshape (x.take 32)
      ((forward_pass log klDiv model x).out_sample.take 32)).length = 64 := by
  have h := save_input_and_recons_eq_of_le log klDiv model x fname (le_of_lt hx)
  exact ⟨by rw [h], by rw [h], stack_take_length _ _ (le_of_lt hx) hs⟩

/-- Concrete instantiation of `save_input_and_recons_ignores_extras` on a
33-example batch. -/
theorem save_input_and_recons_ignores_extras_witness :
    32 < batch33.length ∧
    32 ≤ (forward_pass zeroLog zeroKl witModel batch33).out_sample.length ∧
    ((save_input_and_recons zeroLog zeroKl witModel batch33 "inout33.png" 8).2 = .ok () ∧
     (save_input_and_recons zeroLog zeroKl witModel batch33 "inout33.png" 8).1 =
       [Event.forwardPassEv batch33,
        Event.saveImageEv "inout33.png" wgrid33 8 (img_grid_pad_value wgrid33)] ∧
     wgrid33.length = 64) :=
  ⟨by decide, by decide,
    save_input_and_recons_ignores_extras zeroLog zeroKl witModel batch33 "inout33.png"
      (by decide) (by decide)⟩

/-- C9: with the dry-run flag set, `additional_testing` skips the
visualization work entirely — the effect trace is empty (no file written, no
prior samples drawn, no forward pass run) and the experiment object is
returned unchanged. -/
theorem additional_testing_dry_run_noop {Z P : Type} (log : ℚ → ℚ)
    (klDiv : Z → P → List (List ℚ)) (self : Experiment Z P) (img_folder : String)
    (h : self.args.dry_run = true) :
    additional_testing log klDiv self img_folder = (self, [], .ok ()) := by
  simp [additional_testing, h]

/-- Concrete instantiation of `additional_testing_dry_run_noop`. -/
theorem additional_testing_dry_run_noop_witness :
    dryRunExperiment.args.dry_run = true ∧
    additional_testing zeroLog zeroKl dryRunExperiment "imgs" =
      (dryRunExperiment, [], .ok ()) :=
  ⟨rfl, additional_testing_dry_run_noop zeroLog zeroKl dryRunExperiment "imgs" rfl⟩

/-- C8 (amended): with dry-run unset, provided the test dataloader yields a
first batch of at least 32 examples, `additional_testing` writes exactly two
image artifacts into the caller-supplied folder, named `sample_<step>.png`
and `reconstruction_<step>.png` where `<step>` is the current
`model.global_step`. -/
theorem additional_testing_writes_two_images {Z P : Type} (log : ℚ → ℚ)
    (klDiv : Z → P → List (List ℚ)) (self : Experiment Z P) (img_folder : String)
    (x : Batch) (labels : List ℤ)
    (hdry : self.args.dry_run = false)
    (hhead : self.dataloaders_test.head? = some (x, labels))
    (hx : 32 ≤ x.length) :
    additional_testing log klDiv self img_folder =
      (self,
       [Event.samplePriorEv (8 ^ 2),
        Event.saveImageEv
          (img_folder ++ "/" ++ ("sample_" ++ toString self.model.global_step ++ ".png"))
          (self.model.sample_prior (8 ^ 2)) 8
          (img_grid_pad_value (self.model.sample_prior (8 ^ 2))),
        Event.forwardPassEv x,
        Event.saveImageEv
          (img_folder ++ "/" ++ ("reconstruction_" ++ toString self.model.global_step ++ ".png"))
          (stack_permute_reshape (x.take 32)
            ((forward_pass log klDiv self.model x).out_sample.take 32)) 8
          (img_grid_pad_value (stack_permute_reshape (x.take 32)
            ((forward_pass log klDiv self.model x).out_sample.take 32)))],
       .ok ()) ∧
    (additional_testing log klDiv self img_folder).2.1.filterMap Event.savedFname =
      [img_folder ++ "/" ++ ("sample_" ++ toString self.model.global_step ++ ".png"),
       img_folder ++ "/" ++ ("reconstruction_" ++ toString self.model.global_step ++ ".png")] := by
  have hrec := save_input_and_recons_eq_of_le log klDiv self.model x
    (img_folder ++ "/" ++ ("reconstruction_" ++ toString self.model.global_step ++ ".png")) hx
  have hmain : additional_testing log klDiv self img_folder =
      (self,
       [Event.samplePriorEv (8 ^ 2),
        Event.saveImageEv
          (img_folder ++ "/" ++ ("sample_" ++ toString self.model.global_step ++ ".png"))
          (self.model.sample_prior (8 ^ 2)) 8
          (img_grid_pad_value (self.model.sample_prior (8 ^ 2))),
        Event.forwardPassEv x,
        Event.saveImageEv
          (img_folder ++ "/" ++ ("reconstruction_" ++ toString self.model.global_step ++ ".png"))
          (stack_permute_reshape (x.take 32)
            ((forward_pass log klDiv self.model x).out_sample.take 32)) 8
          (img_grid_pad_value (stack_permute_reshape (x.take 32)
            ((forward_pass log klDiv self.model x).out_sample.take 32)))],
       .ok ()) := by
    simp only [additional_testing, hdry, Bool.false_eq_true, if_false, hhead, hrec]
    rfl
  refine ⟨hmain, ?_⟩
  rw [hmain]
  rfl

/-- Concrete instantiation of `additional_testing_writes_two_images` on an
experiment whose first test batch has 32 examples; the written files are
`sample_7.png` and `reconstruction_7.png` for `global_step = 7`. -/
theorem additional_testing_writes_two_images_witness :
    okExperiment.args.dry_run = false ∧
    okExperiment.dataloaders_test.head? = some (batch32, []) ∧
    32 ≤ batch32.length ∧
    (additional_testing zeroLog zeroKl okExperiment "imgs" =
      (okExperiment,
       [Event.samplePriorEv (8 ^ 2),
        Event.saveImageEv
          ("imgs" ++ "/" ++ ("sample_" ++ toString okExperiment.model.global_step ++ ".png"))
          (okExperiment.model.sample_prior (8 ^ 2)) 8
          (img_grid_pad_value (okExperiment.model.sample_prior (8 ^ 2))),
        Event.forwardPassEv batch32,
        Event.saveImageEv
          ("imgs" ++ "/" ++ ("reconstruction_" ++ toString okExperiment.model.global_step ++ ".png"))
          wgrid32 8 (img_grid_pad_value wgrid32)],
       .ok ()) ∧
     (additional_testing zeroLog zeroKl okExperiment "imgs").2.1.filterMap Event.savedFname =
       ["imgs" ++ "/" ++ ("sample_" ++ toString okExperiment.model.global_step ++ ".png"),
        "imgs" ++ "/" ++ ("reconstruction_" ++ toString okExperiment.model.global_step ++ ".png")]) :=
  ⟨rfl, rfl, by decide,
    additional_testing_writes_two_images zeroLog zeroKl okExperiment "imgs" batch32 []
      rfl rfl (by decide)⟩

/-- C8 counterexample: on an experiment with dry-run unset whose first test
batch has only 31 examples, `additional_testing` writes a single image
artifact (the prior-sample grid) and then raises, so the claim "exactly two
image artifacts are written" fails as stated for this call. -/
theorem additional_testing_two_images_counterexample :
    smallBatchExperiment.args.dry_run = false ∧
    (additional_testing zeroLog zeroKl smallBatchExperiment "imgs").2.1.filterMap
      Event.savedFname = ["imgs/sample_7.png"] ∧
    (additional_testing zeroLog zeroKl smallBatchExperiment "imgs").2.2 =
      .error ("32 data points required, but given batch has size 31." ++
        " Please use a larger batch.") :=
  ⟨rfl, rfl, rfl⟩

/-- C2 (amended): for every parsed configuration with a nonzero test-logging
interval, `_parse_args` returns the parsed arguments when the
marginal-log-likelihood evaluation interval is an exact multiple of the
test-logging interval, and aborts with an `AssertionError` otherwise.  (With
a zero test-logging interval the call always aborts, via the modulo
operation itself — see the counterexample.) -/
theorem parse_args_interval_invariant (args : Args) (h : args.test_log_interval ≠ 0) :
    (args.test_log_interval ∣ args.loglik_interval → _parse_args args = .ok args) ∧
    (¬ args.test_log_interval ∣ args.loglik_interval →
      _parse_args args = .error "AssertionError") := by
  constructor
  · intro hdvd
    have hmod : args.loglik_interval % args.test_log_interval = 0 :=
      Nat.mod_eq_zero_of_dvd hdvd
    simp [_parse_args, h, hmod]
  · intro hndvd
    have hmod : args.loglik_interval % args.test_log_interval ≠ 0 :=
      fun hc => hndvd (Nat.dvd_of_mod_eq_zero hc)
    simp [_parse_args, h, hmod]

/-- Concrete instantiation of `parse_args_interval_invariant`: the default
configuration (intervals 50000 and 1000) satisfies the invariant and is
returned unchanged; a configuration with intervals 50001 and 1000 violates
it and aborts. -/
theorem parse_args_interval_invariant_witness :
    default_args.test_log_interval ≠ 0 ∧
    default_args.test_log_interval ∣ default_args.loglik_interval ∧
    _parse_args default_args = .ok default_args ∧
    ¬ ({ default_args with loglik_interval := 50001 } : Args).test_log_interval ∣
      ({ default_args with loglik_interval := 50001 } : Args).loglik_interval ∧
    _parse_args { default_args with loglik_interval := 50001 } = .error "AssertionError" :=
  ⟨by decide, by decide,
    (parse_args_interval_invariant default_args (by decide)).1 (by decide),
    by decide,
    (parse_args_interval_invariant { default_args with loglik_interval := 50001 }
      (by decide)).2 (by decide)⟩

/-- C2 counterexample: when both the test-logging interval and the
marginal-log-likelihood evaluation interval are 0, the invariant is
satisfied (0 is an exact multiple of 0) yet `_parse_args` does not return
the parsed arguments — the modulo operation raises `ZeroDivisionError`. -/
theorem parse_args_zero_interval_counterexample :
    ({ default_args with test_log_interval := 0, loglik_interval := 0 } : Args).test_log_interval ∣
      ({ default_args with test_log_interval := 0, loglik_interval := 0 } : Args).loglik_interval ∧
    _parse_args { default_args with test_log_interval := 0, loglik_interval := 0 } =
      .error "ZeroDivisionError: integer modulo by zero" :=
  ⟨⟨0, rfl⟩, rfl⟩

/-- C5: given summaries holding the three metric scalars, `print_test_log`
prints a line carrying those scalars and, when the summaries contain a key
matching the importance-weighted pattern, additionally the
marginal-log-likelihood value labelled with the sample count of that key; when no
such key is present, the marginal-log-likelihood segment is omitted
entirely (the line is exactly the three-scalar line). -/
theorem print_test_log_marginal_ll (fmt5g fmt3g : ℚ → String)
    (summaries : List (String × ℚ)) (step epoch : Option ℤ) (e r k : ℚ)
    (he : dictGet summaries "elbo/elbo" = some e)
    (hr : dictGet summaries "elbo/recons" = some r)
    (hk : dictGet summaries "elbo/kl" = some k) :
    (∀ kv, summaries.find? (fun kv => containsSub kv.1 "elbo_IW") = some kv →
      ∀ v, dictGet summaries kv.1 = some v →
      print_test_log fmt5g fmt3g summaries step epoch =
        some (test_log_header step epoch ++
          ("ELBO " ++ fmt5g e ++ "   recons: " ++ fmt3g r ++ "   KL: " ++ fmt3g k) ++
          "   marginal log-likelihood (" ++ afterLastUnderscore kv.1 ++ ") " ++ fmt5g v)) ∧
    (summaries.find? (fun kv => containsSub kv.1 "elbo_IW") = none →
      print_test_log fmt5g fmt3g summaries step epoch =
        some (test_log_header step epoch ++
          ("ELBO " ++ fmt5g e ++ "   recons: " ++ fmt3g r ++ "   KL: " ++ fmt3g k))) := by
  constructor
  · intro kv hfind v hv
    simp [print_test_log, he, hr, hk, hfind, hv]
  · intro hfind
    simp [print_test_log, he, hr, hk, hfind]

/-- Concrete instantiation of `print_test_log_marginal_ll` on summaries with
the key `elbo_IW_100`: the printed line carries the three scalars and the
marginal log-likelihood labelled `100`. -/
theorem print_test_log_marginal_ll_witness :
    dictGet wSummaries "elbo/elbo" = some 1 ∧
    dictGet wSummaries "elbo/recons" = some 2 ∧
    dictGet wSummaries "elbo/kl" = some 3 ∧
    wSummaries.find? (fun kv => containsSub kv.1 "elbo_IW") = some ("elbo_IW_100", 4) ∧
    dictGet wSummaries "elbo_IW_100" = some 4 ∧
    afterLastUnderscore "elbo_IW_100" = "100" ∧
    print_test_log fmtNum fmtNum wSummaries none none =
      some (test_log_header none none ++
        ("ELBO " ++ fmtNum 1 ++ "   recons: " ++ fmtNum 2 ++ "   KL: " ++ fmtNum 3) ++
        "   marginal log-likelihood (" ++ afterLastUnderscore "elbo_IW_100" ++ ") " ++
        fmtNum 4) :=
  ⟨by decide, by decide, by decide, by decide, by decide, by decide,
    (print_test_log_marginal_ll fmtNum fmtNum wSummaries none none 1 2 3
      (by decide) (by decide) (by decide)).1 ("elbo_IW_100", 4) (by decide) 4 (by decide)⟩

/-- C6: the importance-weighted entry is detected by a linear scan over the
summaries in iteration order, selecting the first key that contains the
substring `elbo_IW` anywhere within it (not only keys of the exact shape
`elbo_IW_<K>`), and the reported sample count is whatever text follows the
last underscore of the selected key. -/
theorem print_test_log_scan_semantics (fmt5g fmt3g : ℚ → String)
    (pre post : List (String × ℚ)) (kname : String) (v : ℚ)
    (step epoch : Option ℤ) (e r k w : ℚ)
    (hpre : ∀ kv ∈ pre, containsSub kv.1 "elbo_IW" = false)
    (hkey : containsSub kname "elbo_IW" = true)
    (he : dictGet (pre ++ (kname, v) :: post) "elbo/elbo" = some e)
    (hr : dictGet (pre ++ (kname, v) :: post) "elbo/recons" = some r)
    (hk : dictGet (pre ++ (kname, v) :: post) "elbo/kl" = some k)
    (hv : dictGet (pre ++ (kname, v) :: post) kname = some w) :
    (pre ++ (kname, v) :: post).find? (fun kv => containsSub kv.1 "elbo_IW") =
      some (kname, v) ∧
    print_test_log fmt5g fmt3g (pre ++ (kname, v) :: post) step epoch =
      some (test_log_header step epoch ++
        ("ELBO " ++ fmt5g e ++ "   recons: " ++ fmt3g r ++ "   KL: " ++ fmt3g k) ++
        "   marginal log-likelihood (" ++ afterLastUnderscore kname ++ ") " ++ fmt5g w) := by
  have hpren : pre.find? (fun kv => containsSub kv.1 "elbo_IW") = none :=
    List.find?_eq_none.mpr (fun kv hkv => by simp [hpre kv hkv])
  have hfind : (pre ++ (kname, v) :: post).find? (fun kv => containsSub kv.1 "elbo_IW") =
      some (kname, v) := by
    rw [List.find?_append, hpren, Option.none_or]
    exact List.find?_cons_of_pos post hkey
  refine ⟨hfind, ?_⟩
  simp [print_test_log, he, hr, hk, hfind, hv]

/-- Concrete instantiation of `print_test_log_scan_semantics`: with keys in
iteration order `elbo/elbo`, `elbo/recons`, `elbo/kl`, `xx_elbo_IWyy`,
`elbo_IW_100`, the key `xx_elbo_IWyy` is selected — it is first and matches
by substring although it does not have the exact shape `elbo_IW_<K>` — and
the reported sample count is `IWyy`, the text after its last underscore. -/
theorem print_test_log_scan_semantics_witness :
    (∀ kv ∈ wPre, containsSub kv.1 "elbo_IW" = false) ∧
    containsSub "xx_elbo_IWyy" "elbo_IW" = true ∧
    afterLastUnderscore "xx_elbo_IWyy" = "IWyy" ∧
    ((wPre ++ ("xx_elbo_IWyy", (9 : ℚ)) :: [("elbo_IW_100", 4)]).find?
        (fun kv => containsSub kv.1 "elbo_IW") = some ("xx_elbo_IWyy", 9) ∧
     print_test_log fmtNum fmtNum (wPre ++ ("xx_elbo_IWyy", (9 : ℚ)) :: [("elbo_IW_100", 4)])
        none none =
       some (test_log_header none none ++
         ("ELBO " ++ fmtNum 1 ++ "   recons: " ++ fmtNum 2 ++ "   KL: " ++ fmtNum 3) ++
         "   marginal log-likelihood (" ++ afterLastUnderscore "xx_elbo_IWyy" ++ ") " ++
         fmtNum 9)) :=
  ⟨by decide, by decide, by decide,
    print_test_log_scan_semantics fmtNum fmtNum wPre [("elbo_IW_100", 4)] "xx_elbo_IWyy" 9
      none none 1 2 3 9 (by decide) (by decide) (by decide) (by decide) (by decide) (by decide)⟩

end Boilr
